import Mathlib

/-
Shallow embedding of the agent-airwave workflow engine: the LangGraph
pipelines built in src/silicon_swarm_4g.py and src/airwave_agent_swarm.py.
Both files declare the same SwarmState TypedDict; nodes return partial
updates (Python dicts) that the graph engine merges key-by-key into the
state (a key present in the update overwrites the channel, an absent key
is retained).  The embedding models the state, the partial updates, every
node function, the three routing functions, and the graph driver (one node
invocation, merge, then routing per iteration, as wired by the add_edge /
add_conditional_edges calls in each file).
-/

/-- Values stored in the Dict-typed fields of the state (the JSON
correction package): the sources use strings and lists of strings. -/
inductive JsonVal where
  | str (s : String)
  | list (xs : List String)
deriving DecidableEq

/-- A Python Dict with string keys, as carried in judge_feedback and
pd_feedback. -/
abbrev JsonDict := List (String × JsonVal)

/-- The SwarmState TypedDict; the declaration is identical in both source
files (lines 8-16 of each). -/
structure SwarmState where
  task_description : String
  spec_block : Option String
  rtl_code : Option String
  judge_feedback : Option JsonDict
  pd_feedback : Option JsonDict
  status : String
  retry_count : Int
  budget_alert : Bool
deriving DecidableEq

/-- A partial update returned by a node: a dict holding only the keys the
node writes.  A present key overwrites the state field (including
writing None into an optional field); an absent key leaves it unchanged. -/
structure SwarmUpdate where
  task_description : Option String := none
  spec_block : Option (Option String) := none
  rtl_code : Option (Option String) := none
  judge_feedback : Option (Option JsonDict) := none
  pd_feedback : Option (Option JsonDict) := none
  status : Option String := none
  retry_count : Option Int := none
  budget_alert : Option Bool := none
deriving DecidableEq

/-- The engine merge: keys present in the update overwrite, absent keys
are retained unchanged (LangGraph last-value channel semantics). -/
def applyUpdate (s : SwarmState) (u : SwarmUpdate) : SwarmState where
  task_description := u.task_description.getD s.task_description
  spec_block := u.spec_block.getD s.spec_block
  rtl_code := u.rtl_code.getD s.rtl_code
  judge_feedback := u.judge_feedback.getD s.judge_feedback
  pd_feedback := u.pd_feedback.getD s.pd_feedback
  status := u.status.getD s.status
  retry_count := u.retry_count.getD s.retry_count
  budget_alert := u.budget_alert.getD s.budget_alert

/-- The six graph nodes registered in each file (silicon_swarm_4g
registers the verifier under the name "verification_judge",
airwave_agent_swarm under "judge"; the node function is the same). -/
inductive Node where
  | orchestrator
  | librarian
  | rtl_engineer
  | judge
  | physical_design
  | human_intervention
deriving DecidableEq

/-- Result of executing one node and consulting the routing logic:
continue at the next node, reach END, or abort on a routing fault. -/
inductive StepRes where
  | next (n : Node) (s : SwarmState)
  | halt (s : SwarmState)
  | fail (s : SwarmState)
deriving DecidableEq

/-- Outcome of driving the graph with a fuel bound. -/
inductive Outcome where
  | finished (s : SwarmState)
  | error (s : SwarmState)
  | outOfFuel (n : Node) (s : SwarmState)
deriving DecidableEq

/-- Drive the graph: each iteration invokes the current node, merges its
update, and follows the edge chosen by the routing logic.  Returns the
trace of (node invoked, state after its merge) pairs together with the
outcome.  Fuel bounds the number of iterations so the driver is total. -/
def runTrace (step : Node → SwarmState → StepRes) :
    Nat → Node → SwarmState → List (Node × SwarmState) × Outcome
  | 0, n, s => ([], .outOfFuel n s)
  | fuel + 1, n, s =>
    match step n s with
    | .next n2 s2 =>
      let r := runTrace step fuel n2 s2
      ((n, s2) :: r.1, r.2)
    | .halt s2 => ([(n, s2)], .finished s2)
    | .fail s2 => ([(n, s2)], .error s2)

namespace Silicon

/-- orchestrator_node of silicon_swarm_4g.py (lines 22-30): halt with a
budget alert once retry_count reaches 5, otherwise approve the task. -/
def orchestrator_node (state : SwarmState) : SwarmUpdate :=
  if state.retry_count ≥ 5 then
    { status := some "HALTED", budget_alert := some true }
  else
    { status := some "TASK_APPROVED" }

/-- librarian_node of silicon_swarm_4g.py (lines 32-47). -/
def librarian_node (_state : SwarmState) : SwarmUpdate :=
  { spec_block := some (some "### [TITLE: LTE PSS Generator]\n**3GPP Reference:** TS 36.211 v10.0.0, Section 6.11.1\n**Functional Objective:** Generate the Primary Synchronization Signal for LTE downlink\n**Mathematical Foundation:**\n- Zadoff-Chu sequence: d_u(n) = exp(-j * 2œÄ * u * n * (n+1) / 63) for n = 0 to 30\n- Root indices u ‚àà \x7b25, 29, 34\x7d corresponding to N_ID^(2) ‚àà \x7b0, 1, 2\x7d\n**Hardware Constants:**\n- Sequence length: N_ZC = 63\n- Subcarrier mapping: 31 elements to subcarriers -31 to -1, 32 elements to +1 to +32\n**Implementation Notes:** Store sequences in ROM for ASIC efficiency. Use 16-bit complex fixed-point arithmetic.\n"),
    status := some "SPEC_READY" }

/-- rtl_engineer_node of silicon_swarm_4g.py (lines 49-66). -/
def rtl_engineer_node (_state : SwarmState) : SwarmUpdate :=
  { rtl_code := some (some "module lte_pss_gen (\n    input logic clk,\n    input logic rst_n,\n    input logic [1:0] n_id_2,  // Physical layer identity\n    output logic signed [15:0] pss_i [0:61],  // In-phase components\n    output logic signed [15:0] pss_q [0:61]   // Quadrature components\n);\n\n// Zadoff-Chu sequence ROM\n// Implementation details...\n\nendmodule\n"),
    status := some "CODED" }

/-- The correction-package dict built by verification_judge_node of
silicon_swarm_4g.py (lines 77-83). -/
def judge_feedback_dict : JsonDict :=
  [("correction_id", .str "ERR-001"),
   ("failure_type", .str "LINT"),
   ("evidence", .str "Line 15: \x27logic\x27 should be \x27wire\x27 for continuous assignment"),
   ("root_cause_analysis", .str "Incorrect data type declaration in SystemVerilog"),
   ("required_fix", .str "Change \x27logic\x27 to \x27wire\x27 in output declarations")]

/-- verification_judge_node of silicon_swarm_4g.py (lines 68-91): fail
once while retry_count is 0 (emitting the correction package and
incrementing retry_count), otherwise pass and clear the feedback. -/
def verification_judge_node (state : SwarmState) : SwarmUpdate :=
  if state.retry_count = 0 then
    { judge_feedback := some (some judge_feedback_dict),
      status := some "FAILED_VERIFICATION",
      retry_count := some (state.retry_count + 1) }
  else
    { judge_feedback := some none, status := some "VERIFIED" }

/-- physical_design_node of silicon_swarm_4g.py (lines 93-98). -/
def physical_design_node (_state : SwarmState) : SwarmUpdate :=
  { status := some "GDSII_HARDENED" }

/-- The human_intervention node of silicon_swarm_4g.py (line 132):
a lambda returning a dict that sets status to HALTED. -/
def human_intervention (_state : SwarmState) : SwarmUpdate :=
  { status := some "HALTED" }

/-- route_after_orchestrator of silicon_swarm_4g.py (lines 104-107). -/
def route_after_orchestrator (state : SwarmState) : String :=
  if state.status = "HALTED" then "human_intervention" else "librarian"

/-- route_after_judge of silicon_swarm_4g.py (lines 109-113): the Python
function falls off the end (returning None) for any status other than
VERIFIED or FAILED_VERIFICATION, hence the Option result. -/
def route_after_judge (state : SwarmState) : Option String :=
  if state.status = "VERIFIED" then some "physical_design"
  else if state.status = "FAILED_VERIFICATION" then some "orchestrator"
  else none

/-- route_after_physical_design of silicon_swarm_4g.py (lines 115-118). -/
def route_after_physical_design (state : SwarmState) : String :=
  if state.status = "GDSII_HARDENED" then "end" else "rtl_engineer"

/-- The node function registered for each graph node
(workflow.add_node calls, lines 127-132). -/
def nodeFun : Node → SwarmState → SwarmUpdate
  | .orchestrator => orchestrator_node
  | .librarian => librarian_node
  | .rtl_engineer => rtl_engineer_node
  | .judge => verification_judge_node
  | .physical_design => physical_design_node
  | .human_intervention => human_intervention

/-- Resolve a destination name returned by a conditional-edge function to
the graph node registered under that name (silicon_swarm_4g.py passes no
path map to add_conditional_edges, so the returned string names the
target node directly). -/
def nodeOfName (name : String) : Option Node :=
  if name = "orchestrator" then some .orchestrator
  else if name = "librarian" then some .librarian
  else if name = "rtl_engineer" then some .rtl_engineer
  else if name = "verification_judge" then some .judge
  else if name = "physical_design" then some .physical_design
  else if name = "human_intervention" then some .human_intervention
  else none

/-- One engine iteration for the silicon_swarm_4g graph: run the current
node, merge its update, then follow the wiring of lines 135-141.  The
"end" destination returned by route_after_physical_design denotes the END
marker, as in the sibling file's explicit path map; an unresolvable
destination (route_after_judge returning None) aborts the run. -/
def step (n : Node) (s : SwarmState) : StepRes :=
  let s2 := applyUpdate s (nodeFun n s)
  match n with
  | .orchestrator =>
    match nodeOfName (route_after_orchestrator s2) with
    | some n2 => .next n2 s2
    | none => .fail s2
  | .librarian => .next .rtl_engineer s2
  | .rtl_engineer => .next .judge s2
  | .judge =>
    match route_after_judge s2 with
    | some name =>
      match nodeOfName name with
      | some n2 => .next n2 s2
      | none => .fail s2
    | none => .fail s2
  | .physical_design =>
    if route_after_physical_design s2 = "end" then .halt s2
    else
      match nodeOfName (route_after_physical_design s2) with
      | some n2 => .next n2 s2
      | none => .fail s2
  | .human_intervention => .halt s2

/-- The initial state of the run in silicon_swarm_4g.py (lines 158-167). -/
def initial_state : SwarmState where
  task_description := "Design LTE PSS Generator"
  spec_block := none
  rtl_code := none
  judge_feedback := none
  pd_feedback := none
  status := "START"
  retry_count := 0
  budget_alert := false

end Silicon

namespace Airwave

/-- orchestrator_node of airwave_agent_swarm.py (lines 22-30); the body is
the same as its silicon_swarm_4g twin. -/
def orchestrator_node (state : SwarmState) : SwarmUpdate :=
  if state.retry_count ≥ 5 then
    { status := some "HALTED", budget_alert := some true }
  else
    { status := some "TASK_APPROVED" }

/-- librarian_node of airwave_agent_swarm.py (lines 32-37). -/
def librarian_node (_state : SwarmState) : SwarmUpdate :=
  { spec_block := some (some "### [TITLE: PSS Generator]\n- 3GPP Ref: TS 36.211...\n- Formula: Zadoff-Chu..."),
    status := some "SPEC_READY" }

/-- rtl_engineer_node of airwave_agent_swarm.py (lines 39-44). -/
def rtl_engineer_node (_state : SwarmState) : SwarmUpdate :=
  { rtl_code := some (some "module lte_pss_gen ( input logic clk... ); \n// RTL Logic\nendmodule"),
    status := some "CODED" }

/-- The correction-package dict built by verification_judge_node of
airwave_agent_swarm.py (lines 55-59). -/
def judge_feedback_dict : JsonDict :=
  [("correction_id", .str "ERR-001"),
   ("failure_type", .str "LINT"),
   ("required_fix", .list ["Change \x27<=\x27 to \x27=\x27 in always_comb."])]

/-- verification_judge_node of airwave_agent_swarm.py (lines 46-67). -/
def verification_judge_node (state : SwarmState) : SwarmUpdate :=
  if state.retry_count = 0 then
    { judge_feedback := some (some judge_feedback_dict),
      status := some "FAILED_VERIFICATION",
      retry_count := some (state.retry_count + 1) }
  else
    { judge_feedback := some none, status := some "VERIFIED" }

/-- physical_design_node of airwave_agent_swarm.py (lines 69-74). -/
def physical_design_node (_state : SwarmState) : SwarmUpdate :=
  { status := some "GDSII_HARDENED" }

/-- The human_intervention node of airwave_agent_swarm.py (line 110): a
lambda that only prints, so it returns None, which the engine treats as
an empty update. -/
def human_intervention (_state : SwarmState) : SwarmUpdate := {}

/-- route_after_orchestrator of airwave_agent_swarm.py (lines 80-83). -/
def route_after_orchestrator (state : SwarmState) : String :=
  if state.status = "HALTED" then "human_intervention" else "librarian"

/-- route_after_judge of airwave_agent_swarm.py (lines 85-89): falls off
the end (None) for statuses other than VERIFIED / FAILED_VERIFICATION. -/
def route_after_judge (state : SwarmState) : Option String :=
  if state.status = "VERIFIED" then some "physical_design"
  else if state.status = "FAILED_VERIFICATION" then some "orchestrator"
  else none

/-- route_after_physical_design of airwave_agent_swarm.py (lines 91-94). -/
def route_after_physical_design (state : SwarmState) : String :=
  if state.status = "GDSII_HARDENED" then "end" else "rtl_engineer"

/-- The node function registered for each graph node
(workflow.add_node calls, lines 103-110). -/
def nodeFun : Node → SwarmState → SwarmUpdate
  | .orchestrator => orchestrator_node
  | .librarian => librarian_node
  | .rtl_engineer => rtl_engineer_node
  | .judge => verification_judge_node
  | .physical_design => physical_design_node
  | .human_intervention => human_intervention

/-- One engine iteration for the airwave_agent_swarm graph: run the
current node, merge its update, then follow the wiring of lines 113-128.
Each add_conditional_edges call here carries an explicit path map, so a
destination outside the map aborts the run; the map of the
physical_design branch sends "end" to the END marker. -/
def step (n : Node) (s : SwarmState) : StepRes :=
  let s2 := applyUpdate s (nodeFun n s)
  match n with
  | .orchestrator =>
    let dest := route_after_orchestrator s2
    if dest = "librarian" then .next .librarian s2
    else if dest = "human_intervention" then .next .human_intervention s2
    else .fail s2
  | .librarian => .next .rtl_engineer s2
  | .rtl_engineer => .next .judge s2
  | .judge =>
    match route_after_judge s2 with
    | some dest =>
      if dest = "physical_design" then .next .physical_design s2
      else if dest = "orchestrator" then .next .orchestrator s2
      else .fail s2
    | none => .fail s2
  | .physical_design =>
    let dest := route_after_physical_design s2
    if dest = "end" then .halt s2
    else if dest = "rtl_engineer" then .next .rtl_engineer s2
    else .fail s2
  | .human_intervention => .halt s2

/-- The initial state of the run in airwave_agent_swarm.py
(lines 137-146). -/
def initial_state : SwarmState where
  task_description := "Design LTE PSS Generator module"
  spec_block := none
  rtl_code := none
  judge_feedback := none
  pd_feedback := none
  status := "NEW"
  retry_count := 0
  budget_alert := false

end Airwave

/-- The concrete run of silicon_swarm_4g.py (app.invoke on the initial
state; the START edge enters at the orchestrator).  Fuel 20 is ample: the
run takes nine iterations. -/
def siliconRun : List (Node × SwarmState) × Outcome :=
  runTrace Silicon.step 20 .orchestrator Silicon.initial_state

/-- The concrete run of airwave_agent_swarm.py. -/
def airwaveRun : List (Node × SwarmState) × Outcome :=
  runTrace Airwave.step 20 .orchestrator Airwave.initial_state

/-- The state reached after the i-th node invocation of a trace (the
initial state is returned for an out-of-range index). -/
def stateAt (run : List (Node × SwarmState) × Outcome) (init : SwarmState)
    (i : Nat) : SwarmState :=
  ((run.1.map Prod.snd).getD i init)

/-- Project the final state out of a successful outcome. -/
def finishedState : Outcome → Option SwarmState
  | .finished s => some s
  | _ => none

/-- The engine-visible projection of a state: the fields the routing and
budget logic act on (status, retry_count, budget_alert); the remaining
fields are opaque payloads. -/
def vis (s : SwarmState) : String × Int × Bool :=
  (s.status, s.retry_count, s.budget_alert)

/-- A trace with each state replaced by its engine-visible projection. -/
def traceVis (t : List (Node × SwarmState)) :
    List (Node × (String × Int × Bool)) :=
  t.map fun p => (p.1, vis p.2)

/-- An outcome with the state replaced by its engine-visible projection. -/
inductive OutcomeVis where
  | finished (v : String × Int × Bool)
  | error (v : String × Int × Bool)
  | outOfFuel (n : Node) (v : String × Int × Bool)
deriving DecidableEq

/-- Project an outcome to its engine-visible part. -/
def outcomeVis : Outcome → OutcomeVis
  | .finished s => .finished (vis s)
  | .error s => .error (vis s)
  | .outOfFuel n s => .outOfFuel n (vis s)

/-- A step result with the state replaced by its engine-visible
projection. -/
inductive StepVis where
  | next (n : Node) (v : String × Int × Bool)
  | halt (v : String × Int × Bool)
  | fail (v : String × Int × Bool)
deriving DecidableEq

/-- Project a step result to its engine-visible part. -/
def stepVisOf : StepRes → StepVis
  | .next n s => .next n (vis s)
  | .halt s => .halt (vis s)
  | .fail s => .fail (vis s)

/-- Check along a trace that judge_feedback is present exactly when the
most recent verifier outcome was a failure.  lastFailed carries that
outcome into the fold; it starts false (no verification has happened at
the start of a run). -/
def feedbackTracksJudge : List (Node × SwarmState) → Bool → Bool
  | [], _ => true
  | (n, s) :: rest, lastFailed =>
    let lf := if n = Node.judge then s.status == "FAILED_VERIFICATION" else lastFailed
    (s.judge_feedback.isSome == lf) && feedbackTracksJudge rest lf

/-- Check along a trace that every state satisfies the halt invariant:
status HALTED only together with budget_alert. -/
def haltAlertOk (t : List (Node × SwarmState)) : Bool :=
  t.all fun p => p.2.status != "HALTED" || p.2.budget_alert

/-- The number of states in a trace whose status is FAILED_VERIFICATION,
i.e. the number of verification-failure transitions of the run (each
failing verifier invocation produces exactly one such state, and every
other node overwrites the status with a different value). -/
def countFailedVerifications (t : List (Node × SwarmState)) : Nat :=
  (t.filter fun p => p.2.status == "FAILED_VERIFICATION").length

/-- One step of the retry-count discipline between consecutive states of
a run: retry_count grows by exactly 1 when the status changes to
FAILED_VERIFICATION and is unchanged otherwise. -/
def retryStepOk (prev cur : SwarmState) : Bool :=
  if cur.status == "FAILED_VERIFICATION" && prev.status != "FAILED_VERIFICATION" then
    cur.retry_count == prev.retry_count + 1
  else
    cur.retry_count == prev.retry_count

/-- Check the retry-count discipline between every pair of consecutive
states of a run, starting from the given initial state. -/
def retryTraceOk : SwarmState → List (Node × SwarmState) → Bool
  | _, [] => true
  | prev, (_, cur) :: rest => retryStepOk prev cur && retryTraceOk cur rest

/-- A state carrying a status value that appears in no routing table. -/
def unmappedState : SwarmState :=
  { Silicon.initial_state with status := "UNMAPPED_STATUS" }

/-- C1: for every state, orchestrator_node (the BudgetController stage)
returns an update setting status HALTED and budget_alert true when
retry_count is at least the retry limit 5, and otherwise an update
setting only status TASK_APPROVED; below the limit the merged result
changes the state only in status, and re-invoking the stage at the same
retry_count is a no-op beyond status.  Both source files are covered. -/
theorem orchestrator_budget_contract (s : SwarmState) :
    (s.retry_count ≥ 5 →
      Silicon.orchestrator_node s =
        { status := some "HALTED", budget_alert := some true } ∧
      Airwave.orchestrator_node s =
        { status := some "HALTED", budget_alert := some true }) ∧
    (s.retry_count < 5 →
      Silicon.orchestrator_node s = { status := some "TASK_APPROVED" } ∧
      Airwave.orchestrator_node s = { status := some "TASK_APPROVED" } ∧
      applyUpdate s (Silicon.orchestrator_node s) =
        { s with status := "TASK_APPROVED" } ∧
      applyUpdate (applyUpdate s (Silicon.orchestrator_node s))
          (Silicon.orchestrator_node (applyUpdate s (Silicon.orchestrator_node s))) =
        applyUpdate s (Silicon.orchestrator_node s)) := by
  have hs : Silicon.orchestrator_node = Airwave.orchestrator_node := rfl
  refine ⟨fun h => ?_, fun h => ?_⟩
  · rw [hs, Airwave.orchestrator_node, if_pos h]
    exact ⟨rfl, rfl⟩
  · have hn : ¬ s.retry_count ≥ 5 := by omega
    rw [hs, Airwave.orchestrator_node, if_neg hn]
    refine ⟨rfl, rfl, rfl, ?_⟩
    rw [Airwave.orchestrator_node, if_neg (by simpa [applyUpdate] using hn)]
    rfl

/-- Witness for C1 at retry_count 6 (halted) and 0 (approved). -/
theorem orchestrator_budget_contract_witness :
    Silicon.orchestrator_node { Silicon.initial_state with retry_count := 6 } =
      { status := some "HALTED", budget_alert := some true } ∧
    Silicon.orchestrator_node Silicon.initial_state =
      { status := some "TASK_APPROVED" } :=
  ⟨((orchestrator_budget_contract { Silicon.initial_state with retry_count := 6 }).1
      (by decide)).1,
   ((orchestrator_budget_contract Silicon.initial_state).2 (by decide)).1⟩

/-- C9: merging a partial update overwrites exactly the fields present in
the update and retains every absent field unchanged, and merging an
update whose every present field equals the current value of that field
leaves the record equal to what it was. -/
theorem merge_update_semantics (s : SwarmState) (u : SwarmUpdate) :
    (∀ v, u.task_description = some v → (applyUpdate s u).task_description = v) ∧
    (u.task_description = none →
      (applyUpdate s u).task_description = s.task_description) ∧
    (∀ v, u.spec_block = some v → (applyUpdate s u).spec_block = v) ∧
    (u.spec_block = none → (applyUpdate s u).spec_block = s.spec_block) ∧
    (∀ v, u.rtl_code = some v → (applyUpdate s u).rtl_code = v) ∧
    (u.rtl_code = none → (applyUpdate s u).rtl_code = s.rtl_code) ∧
    (∀ v, u.judge_feedback = some v → (applyUpdate s u).judge_feedback = v) ∧
    (u.judge_feedback = none →
      (applyUpdate s u).judge_feedback = s.judge_feedback) ∧
    (∀ v, u.pd_feedback = some v → (applyUpdate s u).pd_feedback = v) ∧
    (u.pd_feedback = none → (applyUpdate s u).pd_feedback = s.pd_feedback) ∧
    (∀ v, u.status = some v → (applyUpdate s u).status = v) ∧
    (u.status = none → (applyUpdate s u).status = s.status) ∧
    (∀ v, u.retry_count = some v → (applyUpdate s u).retry_count = v) ∧
    (u.retry_count = none → (applyUpdate s u).retry_count = s.retry_count) ∧
    (∀ v, u.budget_alert = some v → (applyUpdate s u).budget_alert = v) ∧
    (u.budget_alert = none → (applyUpdate s u).budget_alert = s.budget_alert) ∧
    ((u.task_description = none ∨ u.task_description = some s.task_description) →
     (u.spec_block = none ∨ u.spec_block = some s.spec_block) →
     (u.rtl_code = none ∨ u.rtl_code = some s.rtl_code) →
     (u.judge_feedback = none ∨ u.judge_feedback = some s.judge_feedback) →
     (u.pd_feedback = none ∨ u.pd_feedback = some s.pd_feedback) →
     (u.status = none ∨ u.status = some s.status) →
     (u.retry_count = none ∨ u.retry_count = some s.retry_count) →
     (u.budget_alert = none ∨ u.budget_alert = some s.budget_alert) →
     applyUpdate s u = s) := by
  refine ⟨?_, ?_, ?_, ?_, ?_, ?_, ?_, ?_, ?_, ?_, ?_, ?_, ?_, ?_, ?_, ?_, ?_⟩
  case _ => intro v h; simp [applyUpdate, h]
  case _ => intro h; simp [applyUpdate, h]
  case _ => intro v h; simp [applyUpdate, h]
  case _ => intro h; simp [applyUpdate, h]
  case _ => intro v h; simp [applyUpdate, h]
  case _ => intro h; simp [applyUpdate, h]
  case _ => intro v h; simp [applyUpdate, h]
  case _ => intro h; simp [applyUpdate, h]
  case _ => intro v h; simp [applyUpdate, h]
  case _ => intro h; simp [applyUpdate, h]
  case _ => intro v h; simp [applyUpdate, h]
  case _ => intro h; simp [applyUpdate, h]
  case _ => intro v h; simp [applyUpdate, h]
  case _ => intro h; simp [applyUpdate, h]
  case _ => intro v h; simp [applyUpdate, h]
  case _ => intro h; simp [applyUpdate, h]
  case _ =>
    intro h1 h2 h3 h4 h5 h6 h7 h8
    obtain ⟨t, sb, rc, jf, pf, st, r, b⟩ := s
    simp only [applyUpdate, SwarmState.mk.injEq]
    refine ⟨?_, ?_, ?_, ?_, ?_, ?_, ?_, ?_⟩ <;>
      first
      | (rcases h1 with h | h <;> simp [h])
      | (rcases h2 with h | h <;> simp [h])
      | (rcases h3 with h | h <;> simp [h])
      | (rcases h4 with h | h <;> simp [h])
      | (rcases h5 with h | h <;> simp [h])
      | (rcases h6 with h | h <;> simp [h])
      | (rcases h7 with h | h <;> simp [h])
      | (rcases h8 with h | h <;> simp [h])

/-- Witness for C9: merging an update that re-states the current status
is a no-op on the record. -/
theorem merge_update_semantics_witness :
    applyUpdate Silicon.initial_state { status := some "START" } =
      Silicon.initial_state :=
  (merge_update_semantics Silicon.initial_state
      { status := some "START" }).2.2.2.2.2.2.2.2.2.2.2.2.2.2.2.2
    (Or.inl rfl) (Or.inl rfl) (Or.inl rfl) (Or.inl rfl) (Or.inl rfl) (Or.inr rfl)
    (Or.inl rfl) (Or.inl rfl)

/-- C3: each routing function is pure in the status field and implements
the transition table of both files: HALTED routes the orchestrator branch
to the escalation node and any other status to the librarian; after the
judge, VERIFIED routes to physical_design and FAILED_VERIFICATION back to
the orchestrator; after physical_design, the hardened status
GDSII_HARDENED routes to the END marker (the step halts) and
FAILED_HARDENING routes back to the rtl_engineer. -/
theorem router_transition_table (s t : SwarmState) :
    (s.status = t.status →
      Silicon.route_after_orchestrator s = Silicon.route_after_orchestrator t ∧
      Silicon.route_after_judge s = Silicon.route_after_judge t ∧
      Silicon.route_after_physical_design s = Silicon.route_after_physical_design t ∧
      Airwave.route_after_orchestrator s = Airwave.route_after_orchestrator t ∧
      Airwave.route_after_judge s = Airwave.route_after_judge t ∧
      Airwave.route_after_physical_design s = Airwave.route_after_physical_design t) ∧
    (s.status = "HALTED" →
      Silicon.route_after_orchestrator s = "human_intervention" ∧
      Airwave.route_after_orchestrator s = "human_intervention") ∧
    (s.status ≠ "HALTED" →
      Silicon.route_after_orchestrator s = "librarian" ∧
      Airwave.route_after_orchestrator s = "librarian") ∧
    (s.status = "VERIFIED" →
      Silicon.route_after_judge s = some "physical_design" ∧
      Airwave.route_after_judge s = some "physical_design") ∧
    (s.status = "FAILED_VERIFICATION" →
      Silicon.route_after_judge s = some "orchestrator" ∧
      Airwave.route_after_judge s = some "orchestrator") ∧
    (s.status = "GDSII_HARDENED" →
      Silicon.route_after_physical_design s = "end" ∧
      Airwave.route_after_physical_design s = "end") ∧
    (s.status = "FAILED_HARDENING" →
      Silicon.route_after_physical_design s = "rtl_engineer" ∧
      Airwave.route_after_physical_design s = "rtl_engineer") ∧
    Silicon.step Node.physical_design s =
      StepRes.halt (applyUpdate s (Silicon.physical_design_node s)) ∧
    Airwave.step Node.physical_design s =
      StepRes.halt (applyUpdate s (Airwave.physical_design_node s)) := by
  refine ⟨fun h => ?_, fun h => ?_, fun h => ?_, fun h => ?_, fun h => ?_,
    fun h => ?_, fun h => ?_, ?_, ?_⟩
  · simp [Silicon.route_after_orchestrator, Silicon.route_after_judge,
      Silicon.route_after_physical_design, Airwave.route_after_orchestrator,
      Airwave.route_after_judge, Airwave.route_after_physical_design, h]
  · simp [Silicon.route_after_orchestrator, Airwave.route_after_orchestrator, h]
  · simp [Silicon.route_after_orchestrator, Airwave.route_after_orchestrator, h]
  · simp [Silicon.route_after_judge, Airwave.route_after_judge, h]
  · simp [Silicon.route_after_judge, Airwave.route_after_judge, h]
  · simp [Silicon.route_after_physical_design, Airwave.route_after_physical_design, h]
  · simp [Silicon.route_after_physical_design, Airwave.route_after_physical_design, h]
  · simp [Silicon.step, Silicon.nodeFun, Silicon.physical_design_node,
      Silicon.route_after_physical_design, applyUpdate]
  · simp [Airwave.step, Airwave.nodeFun, Airwave.physical_design_node,
      Airwave.route_after_physical_design, applyUpdate]

/-- Witness for C3 at status HALTED (escalation) and VERIFIED
(hardening). -/
theorem router_transition_table_witness :
    Silicon.route_after_orchestrator { Silicon.initial_state with status := "HALTED" } =
      "human_intervention" ∧
    Silicon.route_after_judge { Silicon.initial_state with status := "VERIFIED" } =
      some "physical_design" :=
  ⟨((router_transition_table { Silicon.initial_state with status := "HALTED" }
      Silicon.initial_state).2.1 rfl).1,
   ((router_transition_table { Silicon.initial_state with status := "VERIFIED" }
      Silicon.initial_state).2.2.2.1 rfl).1⟩

/-- C7 counterexample: on a status absent from every routing table, the
routers do not abort with a diagnostic; route_after_orchestrator silently
returns the librarian stage and route_after_physical_design silently
returns the rtl_engineer stage, in both files. -/
theorem routing_error_counterexample :
    Silicon.route_after_orchestrator unmappedState = "librarian" ∧
    Airwave.route_after_orchestrator unmappedState = "librarian" ∧
    Silicon.route_after_physical_design unmappedState = "rtl_engineer" ∧
    Airwave.route_after_physical_design unmappedState = "rtl_engineer" :=
  ⟨rfl, rfl, rfl, rfl⟩

/-- C7 amended: route_after_judge yields no destination (None) on a
status outside its table, which aborts the run without naming the status;
the other two routers silently fall through to a stage: every non-HALTED
status goes to the librarian after the orchestrator, and every
non-GDSII_HARDENED status goes to the rtl_engineer after
physical_design. -/
theorem routing_fallthrough (s : SwarmState) :
    (s.status ≠ "HALTED" →
      Silicon.route_after_orchestrator s = "librarian" ∧
      Airwave.route_after_orchestrator s = "librarian") ∧
    (s.status ≠ "VERIFIED" → s.status ≠ "FAILED_VERIFICATION" →
      Silicon.route_after_judge s = none ∧
      Airwave.route_after_judge s = none) ∧
    (s.status ≠ "GDSII_HARDENED" →
      Silicon.route_after_physical_design s = "rtl_engineer" ∧
      Airwave.route_after_physical_design s = "rtl_engineer") := by
  refine ⟨fun h => ?_, fun h1 h2 => ?_, fun h => ?_⟩
  · simp [Silicon.route_after_orchestrator, Airwave.route_after_orchestrator, h]
  · simp [Silicon.route_after_judge, Airwave.route_after_judge, h1, h2]
  · simp [Silicon.route_after_physical_design, Airwave.route_after_physical_design, h]

/-- Witness for the amended C7 at the unmapped status. -/
theorem routing_fallthrough_witness :
    Silicon.route_after_judge unmappedState = none ∧
    Silicon.route_after_orchestrator unmappedState = "librarian" :=
  ⟨((routing_fallthrough unmappedState).2.1 (by decide) (by decide)).1,
   ((routing_fallthrough unmappedState).1 (by decide)).1⟩

/-- C4: retry_count starts at 0 in both files; no stage merge ever
decreases it; a stage merge that ends at any status other than
FAILED_VERIFICATION leaves it unchanged (with no assumption on the
previous status, so in particular the orchestrator re-entry of a retry
cycle leaves it unchanged); any change is exactly +1 and lands on status
FAILED_VERIFICATION; a merge moving a state of any other status into
FAILED_VERIFICATION increments it by exactly 1; and the discipline holds
between every pair of consecutive states of both concrete runs. -/
theorem retry_count_discipline :
    Silicon.initial_state.retry_count = 0 ∧
    Airwave.initial_state.retry_count = 0 ∧
    (∀ (n : Node) (s : SwarmState),
      s.retry_count ≤ (applyUpdate s (Silicon.nodeFun n s)).retry_count ∧
      s.retry_count ≤ (applyUpdate s (Airwave.nodeFun n s)).retry_count) ∧
    (∀ (n : Node) (s : SwarmState),
      ((applyUpdate s (Silicon.nodeFun n s)).status ≠ "FAILED_VERIFICATION" →
        (applyUpdate s (Silicon.nodeFun n s)).retry_count = s.retry_count) ∧
      ((applyUpdate s (Airwave.nodeFun n s)).status ≠ "FAILED_VERIFICATION" →
        (applyUpdate s (Airwave.nodeFun n s)).retry_count = s.retry_count)) ∧
    (∀ (n : Node) (s : SwarmState),
      ((applyUpdate s (Silicon.nodeFun n s)).retry_count = s.retry_count ∨
        ((applyUpdate s (Silicon.nodeFun n s)).retry_count = s.retry_count + 1 ∧
         (applyUpdate s (Silicon.nodeFun n s)).status = "FAILED_VERIFICATION")) ∧
      ((applyUpdate s (Airwave.nodeFun n s)).retry_count = s.retry_count ∨
        ((applyUpdate s (Airwave.nodeFun n s)).retry_count = s.retry_count + 1 ∧
         (applyUpdate s (Airwave.nodeFun n s)).status = "FAILED_VERIFICATION"))) ∧
    (∀ (n : Node) (s : SwarmState), s.status ≠ "FAILED_VERIFICATION" →
      (applyUpdate s (Silicon.nodeFun n s)).status = "FAILED_VERIFICATION" →
      (applyUpdate s (Silicon.nodeFun n s)).retry_count = s.retry_count + 1) ∧
    (∀ (n : Node) (s : SwarmState), s.status ≠ "FAILED_VERIFICATION" →
      (applyUpdate s (Airwave.nodeFun n s)).status = "FAILED_VERIFICATION" →
      (applyUpdate s (Airwave.nodeFun n s)).retry_count = s.retry_count + 1) ∧
    retryTraceOk Silicon.initial_state siliconRun.1 = true ∧
    retryTraceOk Airwave.initial_state airwaveRun.1 = true := by
  refine ⟨rfl, rfl, fun n s => ?_, fun n s => ?_, fun n s => ?_,
    fun n s h h2 => ?_, fun n s h h2 => ?_, rfl, rfl⟩
  · constructor <;> cases n <;>
      simp only [Silicon.nodeFun, Airwave.nodeFun, Silicon.orchestrator_node,
        Airwave.orchestrator_node, Silicon.librarian_node, Airwave.librarian_node,
        Silicon.rtl_engineer_node, Airwave.rtl_engineer_node,
        Silicon.verification_judge_node, Airwave.verification_judge_node,
        Silicon.physical_design_node, Airwave.physical_design_node,
        Silicon.human_intervention, Airwave.human_intervention, applyUpdate] <;>
      (try split) <;> simp
  · constructor <;> cases n <;>
      simp only [Silicon.nodeFun, Airwave.nodeFun, Silicon.orchestrator_node,
        Airwave.orchestrator_node, Silicon.librarian_node, Airwave.librarian_node,
        Silicon.rtl_engineer_node, Airwave.rtl_engineer_node,
        Silicon.verification_judge_node, Airwave.verification_judge_node,
        Silicon.physical_design_node, Airwave.physical_design_node,
        Silicon.human_intervention, Airwave.human_intervention, applyUpdate] <;>
      (try split) <;> simp
  · constructor <;> cases n <;>
      simp only [Silicon.nodeFun, Airwave.nodeFun, Silicon.orchestrator_node,
        Airwave.orchestrator_node, Silicon.librarian_node, Airwave.librarian_node,
        Silicon.rtl_engineer_node, Airwave.rtl_engineer_node,
        Silicon.verification_judge_node, Airwave.verification_judge_node,
        Silicon.physical_design_node, Airwave.physical_design_node,
        Silicon.human_intervention, Airwave.human_intervention, applyUpdate] <;>
      (try split) <;> simp
  · cases n <;>
      simp_all only [Silicon.nodeFun, Silicon.orchestrator_node, Silicon.librarian_node,
        Silicon.rtl_engineer_node, Silicon.verification_judge_node,
        Silicon.physical_design_node, Silicon.human_intervention, applyUpdate] <;>
      (try split at h2) <;> simp_all
  · cases n <;>
      simp_all only [Airwave.nodeFun, Airwave.orchestrator_node, Airwave.librarian_node,
        Airwave.rtl_engineer_node, Airwave.verification_judge_node,
        Airwave.physical_design_node, Airwave.human_intervention, applyUpdate] <;>
      (try split at h2) <;> simp_all

/-- Witness for C4: the failing judge invocation on the initial state is
a transition into FAILED_VERIFICATION and increments retry_count from 0
to 1. -/
theorem retry_count_discipline_witness :
    (applyUpdate Silicon.initial_state
        (Silicon.nodeFun Node.judge Silicon.initial_state)).retry_count =
      Silicon.initial_state.retry_count + 1 :=
  retry_count_discipline.2.2.2.2.2.1 Node.judge Silicon.initial_state (by decide)
    (by decide)

/-- C6: budget_alert starts false in both files; every stage merge
preserves a true budget_alert; no stage other than the orchestrator ever
changes it; whenever the orchestrator's merge produces status HALTED it
also produces budget_alert true; every stage merge preserves the
invariant that status HALTED implies budget_alert, given that the
escalation node is only entered at status HALTED (which the routing
guarantees); and the invariant holds at every reachable state of both
concrete runs. -/
theorem budget_alert_discipline :
    Silicon.initial_state.budget_alert = false ∧
    Airwave.initial_state.budget_alert = false ∧
    (∀ (n : Node) (s : SwarmState), s.budget_alert = true →
      (applyUpdate s (Silicon.nodeFun n s)).budget_alert = true ∧
      (applyUpdate s (Airwave.nodeFun n s)).budget_alert = true) ∧
    (∀ (n : Node) (s : SwarmState), n ≠ Node.orchestrator →
      (applyUpdate s (Silicon.nodeFun n s)).budget_alert = s.budget_alert ∧
      (applyUpdate s (Airwave.nodeFun n s)).budget_alert = s.budget_alert) ∧
    (∀ s : SwarmState,
      ((applyUpdate s (Silicon.orchestrator_node s)).status = "HALTED" →
        (applyUpdate s (Silicon.orchestrator_node s)).budget_alert = true) ∧
      ((applyUpdate s (Airwave.orchestrator_node s)).status = "HALTED" →
        (applyUpdate s (Airwave.orchestrator_node s)).budget_alert = true)) ∧
    (∀ (n : Node) (s : SwarmState),
      (s.status = "HALTED" → s.budget_alert = true) →
      (n = Node.human_intervention → s.status = "HALTED") →
      (((applyUpdate s (Silicon.nodeFun n s)).status = "HALTED" →
          (applyUpdate s (Silicon.nodeFun n s)).budget_alert = true) ∧
       ((applyUpdate s (Airwave.nodeFun n s)).status = "HALTED" →
          (applyUpdate s (Airwave.nodeFun n s)).budget_alert = true))) ∧
    haltAlertOk siliconRun.1 = true ∧
    haltAlertOk airwaveRun.1 = true := by
  refine ⟨rfl, rfl, fun n s hb => ?_, fun n s hn => ?_, fun s => ?_,
    fun n s hinv hh => ?_, rfl, rfl⟩
  · constructor <;> cases n <;>
      simp only [Silicon.nodeFun, Airwave.nodeFun, Silicon.orchestrator_node,
        Airwave.orchestrator_node, Silicon.librarian_node, Airwave.librarian_node,
        Silicon.rtl_engineer_node, Airwave.rtl_engineer_node,
        Silicon.verification_judge_node, Airwave.verification_judge_node,
        Silicon.physical_design_node, Airwave.physical_design_node,
        Silicon.human_intervention, Airwave.human_intervention, applyUpdate] <;>
      (try split) <;> simp [hb]
  · constructor <;> cases n <;> first
      | exact absurd rfl hn
      | simp only [Silicon.nodeFun, Airwave.nodeFun, Silicon.librarian_node,
          Airwave.librarian_node, Silicon.rtl_engineer_node, Airwave.rtl_engineer_node,
          Silicon.verification_judge_node, Airwave.verification_judge_node,
          Silicon.physical_design_node, Airwave.physical_design_node,
          Silicon.human_intervention, Airwave.human_intervention, applyUpdate] <;>
        (try split) <;> simp
  · constructor <;>
      (simp only [Silicon.orchestrator_node, Airwave.orchestrator_node, applyUpdate];
        split <;> simp)
  · constructor <;> cases n <;>
      simp only [Silicon.nodeFun, Airwave.nodeFun, Silicon.orchestrator_node,
        Airwave.orchestrator_node, Silicon.librarian_node, Airwave.librarian_node,
        Silicon.rtl_engineer_node, Airwave.rtl_engineer_node,
        Silicon.verification_judge_node, Airwave.verification_judge_node,
        Silicon.physical_design_node, Airwave.physical_design_node,
        Silicon.human_intervention, Airwave.human_intervention, applyUpdate] <;>
      (try split) <;> simp_all

/-- Witness for C6: the orchestrator halting at retry_count 5 raises the
alert. -/
theorem budget_alert_discipline_witness :
    (applyUpdate { Silicon.initial_state with retry_count := 5 }
        (Silicon.orchestrator_node
          { Silicon.initial_state with retry_count := 5 })).budget_alert = true :=
  (budget_alert_discipline.2.2.2.2.1
      { Silicon.initial_state with retry_count := 5 }).1 (by decide)

/-- C5 counterexample: the fifth state of each concrete run (the state
merged by the orchestrator re-entry after the verification failure) still
carries judge_feedback although its status is TASK_APPROVED, so feedback
presence is not equivalent to status FAILED_VERIFICATION on reachable
states. -/
theorem feedback_presence_counterexample :
    (stateAt siliconRun Silicon.initial_state 4).judge_feedback.isSome = true ∧
    (stateAt siliconRun Silicon.initial_state 4).status = "TASK_APPROVED" ∧
    (stateAt airwaveRun Airwave.initial_state 4).judge_feedback.isSome = true ∧
    (stateAt airwaveRun Airwave.initial_state 4).status = "TASK_APPROVED" :=
  ⟨rfl, rfl, rfl, rfl⟩

/-- C5 amended: along every state of both concrete runs, judge_feedback
is present exactly when the most recent verifier invocation failed (the
feedback set by a failing judge persists through the orchestrator,
librarian and rtl_engineer stages of the retry cycle and is cleared only
by the next passing judge); it is absent at the start of the run. -/
theorem feedback_tracks_last_verification :
    Silicon.initial_state.judge_feedback = none ∧
    feedbackTracksJudge siliconRun.1 false = true ∧
    Airwave.initial_state.judge_feedback = none ∧
    feedbackTracksJudge airwaveRun.1 false = true :=
  ⟨rfl, rfl, rfl, rfl⟩

/-- At retry_count of at least 5, the silicon graph's orchestrator step
routes to the escalation node. -/
lemma silicon_step_orchestrator_halted (s : SwarmState) (h : s.retry_count ≥ 5) :
    Silicon.step .orchestrator s =
      .next .human_intervention (applyUpdate s (Silicon.orchestrator_node s)) := by
  simp [Silicon.step, Silicon.nodeFun, Silicon.orchestrator_node, if_pos h,
    Silicon.route_after_orchestrator, Silicon.nodeOfName, applyUpdate]

/-- At retry_count of at least 5, the airwave graph's orchestrator step
routes to the escalation node. -/
lemma airwave_step_orchestrator_halted (s : SwarmState) (h : s.retry_count ≥ 5) :
    Airwave.step .orchestrator s =
      .next .human_intervention (applyUpdate s (Airwave.orchestrator_node s)) := by
  simp [Airwave.step, Airwave.nodeFun, Airwave.orchestrator_node, if_pos h,
    Airwave.route_after_orchestrator, applyUpdate]

/-- From an orchestrator entry at retry_count of at least 5, the silicon
run finishes after exactly the orchestrator and the escalation node. -/
lemma silicon_halt_tail (s : SwarmState) (fuel : Nat) (h : s.retry_count ≥ 5)
    (hf : 2 ≤ fuel) :
    runTrace Silicon.step fuel .orchestrator s =
      ([(.orchestrator, applyUpdate s (Silicon.orchestrator_node s)),
        (.human_intervention,
          applyUpdate (applyUpdate s (Silicon.orchestrator_node s))
            (Silicon.human_intervention (applyUpdate s (Silicon.orchestrator_node s))))],
       .finished
         (applyUpdate (applyUpdate s (Silicon.orchestrator_node s))
           (Silicon.human_intervention (applyUpdate s (Silicon.orchestrator_node s))))) := by
  obtain ⟨f, rfl⟩ : ∃ f, fuel = f + 2 := ⟨fuel - 2, by omega⟩
  have h2 : ∀ x : SwarmState, Silicon.step .human_intervention x =
      .halt (applyUpdate x (Silicon.human_intervention x)) := fun x => rfl
  rw [show f + 2 = (f + 1) + 1 by omega]
  simp [runTrace, silicon_step_orchestrator_halted s h, h2]

/-- From an orchestrator entry at retry_count of at least 5, the airwave
run finishes after exactly the orchestrator and the escalation node. -/
lemma airwave_halt_tail (s : SwarmState) (fuel : Nat) (h : s.retry_count ≥ 5)
    (hf : 2 ≤ fuel) :
    runTrace Airwave.step fuel .orchestrator s =
      ([(.orchestrator, applyUpdate s (Airwave.orchestrator_node s)),
        (.human_intervention,
          applyUpdate (applyUpdate s (Airwave.orchestrator_node s))
            (Airwave.human_intervention (applyUpdate s (Airwave.orchestrator_node s))))],
       .finished
         (applyUpdate (applyUpdate s (Airwave.orchestrator_node s))
           (Airwave.human_intervention (applyUpdate s (Airwave.orchestrator_node s))))) := by
  obtain ⟨f, rfl⟩ : ∃ f, fuel = f + 2 := ⟨fuel - 2, by omega⟩
  have h2 : ∀ x : SwarmState, Airwave.step .human_intervention x =
      .halt (applyUpdate x (Airwave.human_intervention x)) := fun x => rfl
  rw [show f + 2 = (f + 1) + 1 by omega]
  simp [runTrace, airwave_step_orchestrator_halted s h, h2]

/-- C2: both concrete runs finish with at most RETRY_LIMIT (5)
verification-failure transitions; and from any state in which the
orchestrator observes retry_count of at least 5, the remaining run
invokes exactly the orchestrator (producing status HALTED with
budget_alert true) and then the escalation node, finishing without any
librarian, rtl_engineer, judge or physical_design invocation. -/
theorem retry_budget_bounds_run :
    countFailedVerifications siliconRun.1 ≤ 5 ∧
    (finishedState siliconRun.2).isSome = true ∧
    countFailedVerifications airwaveRun.1 ≤ 5 ∧
    (finishedState airwaveRun.2).isSome = true ∧
    (∀ (s : SwarmState) (fuel : Nat), s.retry_count ≥ 5 → 2 ≤ fuel →
      ((runTrace Silicon.step fuel .orchestrator s).1.map Prod.fst =
         [Node.orchestrator, Node.human_intervention] ∧
       (∀ p ∈ (runTrace Silicon.step fuel .orchestrator s).1,
          p.2.status = "HALTED" ∧ p.2.budget_alert = true) ∧
       (finishedState (runTrace Silicon.step fuel .orchestrator s).2).isSome = true) ∧
      ((runTrace Airwave.step fuel .orchestrator s).1.map Prod.fst =
         [Node.orchestrator, Node.human_intervention] ∧
       (∀ p ∈ (runTrace Airwave.step fuel .orchestrator s).1,
          p.2.status = "HALTED" ∧ p.2.budget_alert = true) ∧
       (finishedState (runTrace Airwave.step fuel .orchestrator s).2).isSome = true)) := by
  refine ⟨by decide, rfl, by decide, rfl, fun s fuel h hf => ⟨?_, ?_⟩⟩
  · rw [silicon_halt_tail s fuel h hf]
    refine ⟨rfl, ?_, rfl⟩
    intro p hp
    have hs1 : (applyUpdate s (Silicon.orchestrator_node s)).status = "HALTED" := by
      simp [Silicon.orchestrator_node, if_pos h, applyUpdate]
    have hb1 : (applyUpdate s (Silicon.orchestrator_node s)).budget_alert = true := by
      simp [Silicon.orchestrator_node, if_pos h, applyUpdate]
    simp only [List.mem_cons, List.not_mem_nil, or_false] at hp
    rcases hp with rfl | rfl
    · exact ⟨hs1, hb1⟩
    · exact ⟨rfl, by simpa [Silicon.human_intervention, applyUpdate] using hb1⟩
  · rw [airwave_halt_tail s fuel h hf]
    refine ⟨rfl, ?_, rfl⟩
    intro p hp
    have hs1 : (applyUpdate s (Airwave.orchestrator_node s)).status = "HALTED" := by
      simp [Airwave.orchestrator_node, if_pos h, applyUpdate]
    have hb1 : (applyUpdate s (Airwave.orchestrator_node s)).budget_alert = true := by
      simp [Airwave.orchestrator_node, if_pos h, applyUpdate]
    simp only [List.mem_cons, List.not_mem_nil, or_false] at hp
    rcases hp with rfl | rfl
    · exact ⟨hs1, hb1⟩
    · exact ⟨by simpa [Airwave.human_intervention, applyUpdate] using hs1,
        by simpa [Airwave.human_intervention, applyUpdate] using hb1⟩

/-- Witness for C2 at a state with retry_count 5 and fuel 2. -/
theorem retry_budget_bounds_run_witness :
    (runTrace Silicon.step 2 .orchestrator
        { Silicon.initial_state with retry_count := 5 }).1.map Prod.fst =
      [Node.orchestrator, Node.human_intervention] :=
  ((retry_budget_bounds_run.2.2.2.2 { Silicon.initial_state with retry_count := 5 } 2
      (by decide) (by decide)).1).1

/-- C8: in both concrete runs the verifier fails exactly once and then
passes: the stage sequence is orchestrator, librarian, rtl_engineer,
judge, orchestrator, librarian, rtl_engineer, judge, physical_design;
retry_count goes from 0 to 1 at the failing judge; the orchestrator
re-entry approves (1 is below the limit 5) without a budget alert; the
state fed to the rtl_engineer rerun still carries the verification
feedback; and the run finishes with status GDSII_HARDENED (the hardened
terminal status) and retry_count 1. -/
theorem one_correction_cycle_scenario :
    siliconRun.1.map Prod.fst =
      [Node.orchestrator, Node.librarian, Node.rtl_engineer, Node.judge,
       Node.orchestrator, Node.librarian, Node.rtl_engineer, Node.judge,
       Node.physical_design] ∧
    airwaveRun.1.map Prod.fst =
      [Node.orchestrator, Node.librarian, Node.rtl_engineer, Node.judge,
       Node.orchestrator, Node.librarian, Node.rtl_engineer, Node.judge,
       Node.physical_design] ∧
    Silicon.initial_state.retry_count = 0 ∧
    Airwave.initial_state.retry_count = 0 ∧
    (stateAt siliconRun Silicon.initial_state 3).status = "FAILED_VERIFICATION" ∧
    (stateAt siliconRun Silicon.initial_state 3).retry_count = 1 ∧
    (stateAt siliconRun Silicon.initial_state 4).status = "TASK_APPROVED" ∧
    (stateAt siliconRun Silicon.initial_state 4).budget_alert = false ∧
    (stateAt siliconRun Silicon.initial_state 5).judge_feedback.isSome = true ∧
    (siliconRun.1.getD 6 (Node.orchestrator, Silicon.initial_state)).1 =
      Node.rtl_engineer ∧
    (stateAt airwaveRun Airwave.initial_state 3).retry_count = 1 ∧
    (stateAt airwaveRun Airwave.initial_state 5).judge_feedback.isSome = true ∧
    (finishedState siliconRun.2).map SwarmState.status = some "GDSII_HARDENED" ∧
    (finishedState siliconRun.2).map SwarmState.retry_count = some 1 ∧
    (finishedState airwaveRun.2).map SwarmState.status = some "GDSII_HARDENED" ∧
    (finishedState airwaveRun.2).map SwarmState.retry_count = some 1 :=
  ⟨rfl, rfl, rfl, rfl, rfl, rfl, rfl, rfl, rfl, rfl, rfl, rfl, rfl, rfl, rfl, rfl⟩

/-- One step of the two graphs agrees on the engine-visible projection,
given visible-equal input states and the escalation node only being
entered at status HALTED. -/
lemma step_vis_corr (n : Node) (sa ss : SwarmState)
    (hv : vis sa = vis ss) (hh : n = Node.human_intervention → sa.status = "HALTED") :
    stepVisOf (Airwave.step n sa) = stepVisOf (Silicon.step n ss) := by
  obtain ⟨h1, h2, h3⟩ : sa.status = ss.status ∧ sa.retry_count = ss.retry_count ∧
      sa.budget_alert = ss.budget_alert := by
    simpa [vis, Prod.ext_iff] using hv
  cases n
  case orchestrator =>
    by_cases hc : (5 : Int) ≤ ss.retry_count
    · simp [Airwave.step, Silicon.step, Airwave.nodeFun, Silicon.nodeFun,
        Airwave.orchestrator_node, Silicon.orchestrator_node, h1, h2, h3, hc, applyUpdate,
        Airwave.route_after_orchestrator, Silicon.route_after_orchestrator,
        Silicon.nodeOfName, stepVisOf, vis]
    · simp [Airwave.step, Silicon.step, Airwave.nodeFun, Silicon.nodeFun,
        Airwave.orchestrator_node, Silicon.orchestrator_node, h1, h2, h3, hc, applyUpdate,
        Airwave.route_after_orchestrator, Silicon.route_after_orchestrator,
        Silicon.nodeOfName, stepVisOf, vis]
  case librarian =>
    simp [Airwave.step, Silicon.step, Airwave.nodeFun, Silicon.nodeFun,
      Airwave.librarian_node, Silicon.librarian_node, h1, h2, h3, applyUpdate,
      stepVisOf, vis]
  case rtl_engineer =>
    simp [Airwave.step, Silicon.step, Airwave.nodeFun, Silicon.nodeFun,
      Airwave.rtl_engineer_node, Silicon.rtl_engineer_node, h1, h2, h3, applyUpdate,
      stepVisOf, vis]
  case judge =>
    by_cases hc : ss.retry_count = 0
    · simp [Airwave.step, Silicon.step, Airwave.nodeFun, Silicon.nodeFun,
        Airwave.verification_judge_node, Silicon.verification_judge_node, h1, h2, h3, hc,
        applyUpdate, Airwave.route_after_judge, Silicon.route_after_judge,
        Silicon.nodeOfName, stepVisOf, vis]
    · simp [Airwave.step, Silicon.step, Airwave.nodeFun, Silicon.nodeFun,
        Airwave.verification_judge_node, Silicon.verification_judge_node, h1, h2, h3, hc,
        applyUpdate, Airwave.route_after_judge, Silicon.route_after_judge,
        Silicon.nodeOfName, stepVisOf, vis]
  case physical_design =>
    simp [Airwave.step, Silicon.step, Airwave.nodeFun, Silicon.nodeFun,
      Airwave.physical_design_node, Silicon.physical_design_node, h1, h2, h3, applyUpdate,
      Airwave.route_after_physical_design, Silicon.route_after_physical_design,
      stepVisOf, vis]
  case human_intervention =>
    have hs : sa.status = "HALTED" := hh rfl
    simp [Airwave.step, Silicon.step, Airwave.nodeFun, Silicon.nodeFun,
      Airwave.human_intervention, Silicon.human_intervention, applyUpdate,
      stepVisOf, vis, hs, h1 ▸ hs, h2, h3]

/-- The airwave graph only routes into the escalation node from a state
of status HALTED. -/
lemma airwave_next_human_halted (n n2 : Node) (s s2 : SwarmState)
    (h : Airwave.step n s = .next n2 s2) (hn2 : n2 = Node.human_intervention) :
    s2.status = "HALTED" := by
  subst hn2
  cases n
  case orchestrator =>
    by_cases hd : Airwave.route_after_orchestrator
        (applyUpdate s (Airwave.nodeFun .orchestrator s)) = "librarian"
    · simp [Airwave.step, hd] at h
    · by_cases hd2 : Airwave.route_after_orchestrator
          (applyUpdate s (Airwave.nodeFun .orchestrator s)) = "human_intervention"
      · simp [Airwave.step, hd, hd2] at h
        by_cases hs : (applyUpdate s (Airwave.nodeFun .orchestrator s)).status = "HALTED"
        · rw [← h]; exact hs
        · exact absurd (by simp [Airwave.route_after_orchestrator, hs]) hd
      · simp [Airwave.step, hd, hd2] at h
  case librarian => simp [Airwave.step] at h
  case rtl_engineer => simp [Airwave.step] at h
  case judge =>
    rcases hr : Airwave.route_after_judge (applyUpdate s (Airwave.nodeFun .judge s)) with
      _ | dest
    · simp [Airwave.step, hr] at h
    · by_cases hd : dest = "physical_design"
      · simp [Airwave.step, hr, hd] at h
      · by_cases hd2 : dest = "orchestrator"
        · simp [Airwave.step, hr, hd, hd2] at h
        · simp [Airwave.step, hr, hd, hd2] at h
  case physical_design =>
    by_cases hd : Airwave.route_after_physical_design
        (applyUpdate s (Airwave.nodeFun .physical_design s)) = "end"
    · simp [Airwave.step, hd] at h
    · by_cases hd2 : Airwave.route_after_physical_design
          (applyUpdate s (Airwave.nodeFun .physical_design s)) = "rtl_engineer"
      · simp [Airwave.step, hd, hd2] at h
      · simp [Airwave.step, hd, hd2] at h
  case human_intervention => simp [Airwave.step] at h

/-- The two graph drivers produce engine-visibly equal traces and
outcomes from visible-equal states, from any node at which the escalation
entry condition holds. -/
lemma run_vis_eq (fuel : Nat) : ∀ (n : Node) (sa ss : SwarmState),
    vis sa = vis ss → (n = Node.human_intervention → sa.status = "HALTED") →
    traceVis (runTrace Airwave.step fuel n sa).1 =
      traceVis (runTrace Silicon.step fuel n ss).1 ∧
    outcomeVis (runTrace Airwave.step fuel n sa).2 =
      outcomeVis (runTrace Silicon.step fuel n ss).2 := by
  induction fuel with
  | zero =>
    intro n sa ss hv hh
    simp [runTrace, traceVis, outcomeVis, hv]
  | succ fuel ih =>
    intro n sa ss hv hh
    have hcorr := step_vis_corr n sa ss hv hh
    cases ha : Airwave.step n sa with
    | next n2 sa2 =>
      cases hs : Silicon.step n ss with
      | next m2 ss2 =>
        rw [ha, hs] at hcorr
        simp only [stepVisOf, StepVis.next.injEq] at hcorr
        obtain ⟨hn2, hv2⟩ := hcorr
        subst hn2
        have hh2 : n2 = Node.human_intervention → sa2.status = "HALTED" :=
          fun he => airwave_next_human_halted n n2 sa sa2 ha he
        have ihx := ih n2 sa2 ss2 hv2 hh2
        simp [runTrace, ha, hs, traceVis, ihx.1, ihx.2, hv2]
        simpa [traceVis] using ihx.1
      | halt ss2 => rw [ha, hs] at hcorr; simp [stepVisOf] at hcorr
      | fail ss2 => rw [ha, hs] at hcorr; simp [stepVisOf] at hcorr
    | halt sa2 =>
      cases hs : Silicon.step n ss with
      | next m2 ss2 => rw [ha, hs] at hcorr; simp [stepVisOf] at hcorr
      | halt ss2 =>
        rw [ha, hs] at hcorr
        simp only [stepVisOf, StepVis.halt.injEq] at hcorr
        simp [runTrace, ha, hs, traceVis, outcomeVis, hcorr]
      | fail ss2 => rw [ha, hs] at hcorr; simp [stepVisOf] at hcorr
    | fail sa2 =>
      cases hs : Silicon.step n ss with
      | next m2 ss2 => rw [ha, hs] at hcorr; simp [stepVisOf] at hcorr
      | halt ss2 => rw [ha, hs] at hcorr; simp [stepVisOf] at hcorr
      | fail ss2 =>
        rw [ha, hs] at hcorr
        simp only [stepVisOf, StepVis.fail.injEq] at hcorr
        simp [runTrace, ha, hs, traceVis, outcomeVis, hcorr]

/-- C10: started from any pair of initial states agreeing on status,
retry_count and budget_alert, the two pipeline builds drive the same
sequence of stage kinds through identical engine-visible state
projections and agree on the outcome; and the two files' own concrete
runs (whose initial statuses START and NEW are both immediately
overwritten by the orchestrator) have identical visible traces and
outcomes. -/
theorem pipelines_visibly_equivalent :
    (∀ (fuel : Nat) (sa ss : SwarmState),
      sa.status = ss.status → sa.retry_count = ss.retry_count →
      sa.budget_alert = ss.budget_alert →
      traceVis (runTrace Airwave.step fuel .orchestrator sa).1 =
        traceVis (runTrace Silicon.step fuel .orchestrator ss).1 ∧
      outcomeVis (runTrace Airwave.step fuel .orchestrator sa).2 =
        outcomeVis (runTrace Silicon.step fuel .orchestrator ss).2) ∧
    traceVis airwaveRun.1 = traceVis siliconRun.1 ∧
    outcomeVis airwaveRun.2 = outcomeVis siliconRun.2 := by
  refine ⟨fun fuel sa ss h1 h2 h3 =>
    run_vis_eq fuel .orchestrator sa ss (by simp [vis, h1, h2, h3])
      (fun he => Node.noConfusion he), rfl, rfl⟩

/-- Witness for C10: both graphs run on the silicon initial state. -/
theorem pipelines_visibly_equivalent_witness :
    traceVis (runTrace Airwave.step 20 .orchestrator Silicon.initial_state).1 =
      traceVis (runTrace Silicon.step 20 .orchestrator Silicon.initial_state).1 ∧
    outcomeVis (runTrace Airwave.step 20 .orchestrator Silicon.initial_state).2 =
      outcomeVis (runTrace Silicon.step 20 .orchestrator Silicon.initial_state).2 :=
  pipelines_visibly_equivalent.1 20 Silicon.initial_state Silicon.initial_state rfl rfl rfl
